import Mathlib

/-!
Verification of the locator/query-set core of the pyteamcity client library.

The embedding follows the source files:
  - pyteamcity/core/queryset.py  (class QuerySet)
  - pyteamcity/project.py        (class ProjectQuerySet, used as the concrete
    subclass: uri, filter fields id/name, iteration over the "project" field)
  - pyteamcity/teamcity.py       (class TeamCity, base URL construction)
  - pyteamcity/core/locator.py is imported by queryset.py but is not part of
    the sources at hand; the Locator is modelled from the specification.

HTTP transport is modelled as a pure function from URL to a decoded response;
every operation threads the query-set state and records the list of URLs it
requested, so that request counts are provable facts.
-/

/-- Decoded JSON values, as returned by the transport after body decoding. -/
inductive Json where
  | num (n : Int)
  | str (s : String)
  | arr (elems : List Json)
  | obj (fields : List (String × Json))

/-- Dictionary lookup, `d["k"]` / `d.get("k")` on a decoded JSON object:
`none` when the value is not an object or the key is absent. -/
def Json.lookup : Json → String → Option Json
  | .obj fields, k => List.lookup k fields
  | _, _ => none

/-- An HTTP response as seen through the transport: status code, raw body
text, and the JSON-decoded body. -/
structure Response where
  status : Nat
  text : String
  body : Json

/-- The transport: the server answers every URL with a response.  Mirrors
`self.teamcity.session.get(url)` in `QuerySet._fetch`. -/
def Net : Type := String → Response

/-- Exceptions raised by the query-set code paths.
`unauthorized` is `exceptions.UnauthorizedError` (carrying status code and
body text), `httpError` is `exceptions.HTTPError`, `multipleObjectsReturned`
is `exceptions.MultipleObjectsReturned`; `keyError` models a Python
`KeyError` on dictionary access, `typeError` the `TypeError` that the `len`
builtin raises when `__len__` returns a non-integer (and iterating a
non-list), and `stopIteration` the `StopIteration` escaping
`QuerySet.__getitem__` when the sliced iterator is exhausted early. -/
inductive TCError where
  | unauthorized (statusCode : Nat) (text : String)
  | httpError (statusCode : Nat) (text : String)
  | multipleObjectsReturned
  | keyError (key : String)
  | typeError
  | stopIteration

/-- The mutable state of a `QuerySet` instance (here `ProjectQuerySet`):
`protocol` and `server` come from the owning `TeamCity` instance,
`baseUrl` is `self.base_url` (TeamCity base URL plus the entity uri),
`locator` is the ordered predicate list of `self._locator`,
`dataDict` is `self._data_dict` (`none` is Python `None`; `some (.obj [])`
is the initial empty dict `\x7b\x7d`), and `url` is `self.url`, set by
`_fetch` (absent before the first fetch). -/
structure QuerySetState where
  protocol : String
  server : String
  baseUrl : String
  locator : List (String × String)
  dataDict : Option Json
  url : Option String

/-- Python truthiness of `self._data_dict` in `if not self._data_dict`:
`None` and the empty dict are falsy, a non-empty dict is truthy. -/
def truthyDict : Option Json → Bool
  | none => false
  | some (.obj fields) => !fields.isEmpty
  | some _ => true

/-- Modelled from the spec: the file `core/locator.py` (class `Locator`) is
not among the sources; per the specification, `add_predicate(name, value)`
appends one `(name, value)` predicate pair, preserving insertion order and
never deduplicating names. -/
def Locator.addPred (preds : List (String × String)) (n v : String) :
    List (String × String) :=
  preds ++ [(n, v)]

/-- Modelled from the spec: the file `core/locator.py` is not among the
sources; per the specification, `render()` (the string conversion used as
`str(self._locator)` in `QuerySet._get_url`) produces the predicates
comma-joined in insertion order, each rendered as `name:value`, and the
empty predicate list renders to the empty string. -/
def Locator.render (preds : List (String × String)) : String :=
  String.intercalate "," (preds.map fun p => p.1 ++ ":" ++ p.2)

/-- `TeamCity.__init__` URL base: `protocol://server`, appending a `:port`
suffix when the port is not the protocol default (teamcity.py lines
104-108). -/
def baseBaseUrl (protocol server : String) (port : Nat) : String :=
  let u := protocol ++ "://" ++ server
  let u := if protocol = "http" ∧ port ≠ 80 then u ++ ":" ++ toString port else u
  if protocol = "https" ∧ port ≠ 443 then u ++ ":" ++ toString port else u

/-- `QuerySet._get_url(details, href)`: an explicit href yields
`"http://" + self.teamcity.server + href` (note the literal scheme in the
source); otherwise the base URL, with the rendered locator appended
directly when `details` is set, or as a `?locator=` query parameter when
not, and nothing appended when the locator renders empty. -/
def getUrl (s : QuerySetState) (details : Bool) (href : Option String) :
    String :=
  match href with
  | some h => "http://" ++ s.server ++ h
  | none =>
    let locatorStr := Locator.render s.locator
    if locatorStr = "" then s.baseUrl
    else if details then s.baseUrl ++ locatorStr
    else s.baseUrl ++ "?locator=" ++ locatorStr

/-- Result of one query-set operation: the returned value or raised
exception, the state of the instance afterwards, and the URLs requested
over the network during the call, in order. -/
structure StepResult (α : Type) where
  res : Except TCError α
  state : QuerySetState
  log : List String

/-- `QuerySet._fetch(details, href)`: store the URL in `self.url`, issue the
GET, and translate an error status into `UnauthorizedError` (401) or
`HTTPError` (other error statuses), both carrying the status code and the
response body text; on success return the decoded JSON body.  The
raise-on-status check follows the external requests library, whose
`Response.raise_for_status` raises exactly for status codes 400-599. -/
def fetchOp (net : Net) (s : QuerySetState) (details : Bool)
    (href : Option String) : StepResult Json :=
  let u := getUrl s details href
  let s1 := { s with url := some u }
  let r := net u
  if 400 ≤ r.status ∧ r.status < 600 then
    if r.status = 401 then ⟨.error (.unauthorized r.status r.text), s1, [u]⟩
    else ⟨.error (.httpError r.status r.text), s1, [u]⟩
  else ⟨.ok r.body, s1, [u]⟩

/-- `QuerySet._data(details, href)`: fetch and memoize into `self._data_dict`
when it is falsy, then return it; a truthy memoized payload is returned
without any request. -/
def dataOp (net : Net) (s : QuerySetState) (details : Bool)
    (href : Option String) : StepResult Json :=
  if truthyDict s.dataDict then
    ⟨.ok (s.dataDict.getD (.obj [])), s, []⟩
  else
    let r := fetchOp net s details href
    match r.res with
    | .ok j => ⟨.ok j, { r.state with dataDict := some j }, r.log⟩
    | .error e => ⟨.error e, r.state, r.log⟩

/-- `len(queryset)` via `QuerySet.__len__`: `self._data()["count"]`.  A
missing key raises `KeyError`; a non-integer value makes the `len` builtin
raise `TypeError`. -/
def lenOp (net : Net) (s : QuerySetState) : StepResult Int :=
  let r := dataOp net s false none
  match r.res with
  | .error e => ⟨.error e, r.state, r.log⟩
  | .ok j =>
    match j.lookup "count" with
    | some (.num n) => ⟨.ok n, r.state, r.log⟩
    | some _ => ⟨.error .typeError, r.state, r.log⟩
    | none => ⟨.error (.keyError "count"), r.state, r.log⟩

/-- `ProjectQuerySet.filter(id, name)`: append an `id` predicate when given,
then a `name` predicate when given; return self. -/
def filterOp (s : QuerySetState) (idArg nameArg : Option String) :
    QuerySetState :=
  let s1 := match idArg with
    | some v => { s with locator := Locator.addPred s.locator "id" v }
    | none => s
  match nameArg with
  | some v => { s1 with locator := Locator.addPred s1.locator "name" v }
  | none => s1

/-- A `Project` entity as built by `Project.from_dict`: every field is read
with `d.get(...)`, so absent keys become `None`; the raw dict is kept in
`_data_dict`. -/
structure Project where
  projId : Option Json
  projName : Option Json
  description : Option Json
  href : Option Json
  webUrl : Option Json
  parentProjectId : Option Json
  dataDict : Json

/-- `Project.from_dict(d, query_set)` (the back-references to the query set
and TeamCity instance are omitted from the entity model). -/
def Project.fromDict (d : Json) : Project :=
  { projId := d.lookup "id"
    projName := d.lookup "name"
    description := d.lookup "description"
    href := d.lookup "href"
    webUrl := d.lookup "webUrl"
    parentProjectId := d.lookup "parentProjectId"
    dataDict := d }

/-- What `QuerySet.get` returns: the detail URL (when `just_url`) or the
entity built by the factory. -/
inductive GetResult where
  | url (u : String)
  | entity (p : Project)

/-- The tail of `QuerySet.get` after the multiple-objects check: reset
`self._data_dict = None`, then either return the detail URL (`just_url`) or
fetch the detailed representation through `_data(details=True)` and build
the entity.  `log` carries the URLs already requested earlier in the same
`get` call. -/
def getFinish (net : Net) (s : QuerySetState) (justUrl : Bool)
    (log : List String) : StepResult GetResult :=
  let s1 := { s with dataDict := none }
  if justUrl then ⟨.ok (.url (getUrl s1 true none)), s1, log⟩
  else
    let r := dataOp net s1 true none
    match r.res with
    | .ok j => ⟨.ok (.entity (Project.fromDict j)), r.state, log ++ r.log⟩
    | .error e => ⟨.error e, r.state, log ++ r.log⟩

/-- `QuerySet.get(just_url, raise_multiple_objects_returned, **kwargs)`:
apply `filter(**kwargs)`; when `raise_multiple_objects_returned` is set,
evaluate `len(self)` (a short-circuit: `len` is not evaluated otherwise)
and raise `MultipleObjectsReturned` when it exceeds 1; then reset the
memoized payload and return the detail URL or the fetched entity. -/
def getOp (net : Net) (s : QuerySetState) (justUrl raiseMultiple : Bool)
    (idArg nameArg : Option String) : StepResult GetResult :=
  let s1 := filterOp s idArg nameArg
  if raiseMultiple then
    let r := lenOp net s1
    match r.res with
    | .error e => ⟨.error e, r.state, r.log⟩
    | .ok n =>
      if n > 1 then ⟨.error .multipleObjectsReturned, r.state, r.log⟩
      else getFinish net r.state justUrl r.log
  else getFinish net s1 justUrl []

/-- `ProjectQuerySet.__iter__` materialized: the entities built from the
elements of `self._data()["project"]`, in payload order. -/
def iterOp (net : Net) (s : QuerySetState) : StepResult (List Project) :=
  let r := dataOp net s false none
  match r.res with
  | .error e => ⟨.error e, r.state, r.log⟩
  | .ok j =>
    match j.lookup "project" with
    | some (.arr ds) => ⟨.ok (ds.map Project.fromDict), r.state, r.log⟩
    | some _ => ⟨.error .typeError, r.state, r.log⟩
    | none => ⟨.error (.keyError "project"), r.state, r.log⟩

/-- `QuerySet.__getitem__(index)` for an integer index:
`next(itertools.islice(self, index, index + 1))` — the index-th element of
the iteration sequence, with `StopIteration` escaping when the sequence is
exhausted before reaching it. -/
def getItemOp (net : Net) (s : QuerySetState) (i : Nat) : StepResult Project :=
  let r := iterOp net s
  match r.res with
  | .error e => ⟨.error e, r.state, r.log⟩
  | .ok ps =>
    match ps.get? i with
    | some p => ⟨.ok p, r.state, r.log⟩
    | none => ⟨.error .stopIteration, r.state, r.log⟩

/-! ## Helper lemmas -/

theorem fetchOp_log (net : Net) (s : QuerySetState) (details : Bool)
    (href : Option String) :
    (fetchOp net s details href).log = [getUrl s details href] := by
  simp only [fetchOp]
  split
  · split <;> rfl
  · rfl

theorem fetchOp_state (net : Net) (s : QuerySetState) (details : Bool)
    (href : Option String) :
    (fetchOp net s details href).state
      = { s with url := some (getUrl s details href) } := by
  simp only [fetchOp]
  split
  · split <;> rfl
  · rfl

theorem fetchOp_res_ok (net : Net) (s : QuerySetState) (details : Bool)
    (href : Option String)
    (h : ¬(400 ≤ (net (getUrl s details href)).status
           ∧ (net (getUrl s details href)).status < 600)) :
    (fetchOp net s details href).res = .ok (net (getUrl s details href)).body := by
  simp [fetchOp, h]

theorem dataOp_cached (net : Net) (s : QuerySetState) (details : Bool)
    (href : Option String) (h : truthyDict s.dataDict = true) :
    dataOp net s details href = ⟨.ok (s.dataDict.getD (.obj [])), s, []⟩ := by
  simp [dataOp, h]

theorem dataOp_log_uncached (net : Net) (s : QuerySetState) (details : Bool)
    (href : Option String) (h : truthyDict s.dataDict = false) :
    (dataOp net s details href).log = [getUrl s details href] := by
  simp only [dataOp, h, Bool.false_eq_true, if_false]
  split <;> simp [fetchOp_log]

theorem dataOp_uncached_ok (net : Net) (s : QuerySetState) (details : Bool)
    (href : Option String) (h : truthyDict s.dataDict = false)
    (hok : ¬(400 ≤ (net (getUrl s details href)).status
             ∧ (net (getUrl s details href)).status < 600)) :
    dataOp net s details href =
      ⟨.ok (net (getUrl s details href)).body,
       { s with url := some (getUrl s details href),
                dataDict := some (net (getUrl s details href)).body },
       [getUrl s details href]⟩ := by
  simp [dataOp, fetchOp, h, hok]

theorem lenOp_log (net : Net) (s : QuerySetState) :
    (lenOp net s).log = (dataOp net s false none).log := by
  simp only [lenOp]
  split
  · rfl
  · split <;> rfl

theorem lookup_some_truthy (j : Json) (k : String) (v : Json)
    (h : Json.lookup j k = some v) : truthyDict (some j) = true := by
  cases j with
  | obj fields =>
    cases fields with
    | nil => simp [Json.lookup, List.lookup] at h
    | cons a l => simp [truthyDict]
  | num n => simp [Json.lookup] at h
  | str t => simp [Json.lookup] at h
  | arr es => simp [Json.lookup] at h

theorem filterOp_baseUrl (s : QuerySetState) (idArg nameArg : Option String) :
    (filterOp s idArg nameArg).baseUrl = s.baseUrl := by
  cases idArg <;> cases nameArg <;> rfl

theorem foldl_addPred (calls : List (String × String))
    (init : List (String × String)) :
    calls.foldl (fun l nv => Locator.addPred l nv.1 nv.2) init
      = init ++ calls := by
  induction calls generalizing init with
  | nil => simp
  | cons a l ih =>
    rw [List.foldl_cons, ih]
    simp [Locator.addPred]

theorem getUrl_detail (s : QuerySetState) :
    getUrl s true none
      = if Locator.render s.locator = "" then s.baseUrl
        else s.baseUrl ++ Locator.render s.locator := by
  simp [getUrl]

/-! ## Concrete instances used by witnesses and counterexamples -/

/-- A freshly constructed `ProjectQuerySet` on a guest-access connection:
empty locator, `_data_dict` initialized to the empty dict. -/
def sFresh : QuerySetState :=
  { protocol := "http", server := "teamcity.example.com",
    baseUrl := "http://teamcity.example.com/guestAuth/app/rest/projects/",
    locator := [], dataDict := some (.obj []), url := none }

/-- A query set built for an https-configured `TeamCity` connection. -/
def sHttps : QuerySetState :=
  { protocol := "https", server := "example.com",
    baseUrl := baseBaseUrl "https" "example.com" 443
               ++ "/httpAuth/app/rest/projects/",
    locator := [], dataDict := some (.obj []), url := none }

/-! ## Claims -/

/-- C4: for every sequence of add_predicate calls, render produces the
predicates comma-joined in call order as name:value pairs (repeated names
append rather than replace, as the quantification over arbitrary sequences
covers duplicated names); the empty sequence renders to the empty string,
and a query set whose locator is empty builds the collection-query URL as
the bare base path, with no locator query parameter appended. -/
theorem c4_locator_render_join (calls : List (String × String))
    (s : QuerySetState) (h : s.locator = []) :
    Locator.render (calls.foldl (fun l nv => Locator.addPred l nv.1 nv.2) [])
      = String.intercalate "," (calls.map fun nv => nv.1 ++ ":" ++ nv.2)
    ∧ Locator.render [] = ""
    ∧ getUrl s false none = s.baseUrl := by
  refine ⟨?_, rfl, ?_⟩
  · rw [foldl_addPred]
    rfl
  · have h2 : Locator.render s.locator = "" := by rw [h]; rfl
    simp [getUrl, h2]

/-- Witness for C4 at the call sequence id:a, id:b (a duplicated name) and
a fresh query set. -/
theorem c4_locator_render_join_witness :
    sFresh.locator = []
    ∧ (Locator.render
        (([("id", "a"), ("id", "b")] : List (String × String)).foldl
          (fun l nv => Locator.addPred l nv.1 nv.2) [])
        = String.intercalate ","
            (([("id", "a"), ("id", "b")] : List (String × String)).map
              fun nv => nv.1 ++ ":" ++ nv.2)
       ∧ Locator.render [] = ""
       ∧ getUrl sFresh false none = sFresh.baseUrl) :=
  ⟨rfl, c4_locator_render_join [("id", "a"), ("id", "b")] sFresh rfl⟩

/-- C6: evidence of the divergence — `_get_url` with an explicit href
hardcodes the `http://` scheme, so on an https-configured connection the
resulting URL does not preserve the configured protocol, although the
connection-level URL construction (`base_base_url`, used elsewhere, e.g. by
`Project.delete`) resolves the same href to an https URL. -/
theorem c6_href_scheme_hardcoded :
    getUrl sHttps false (some "/x") = "http://example.com/x"
    ∧ baseBaseUrl "https" "example.com" 443 ++ "/x" = "https://example.com/x"
    ∧ "http://example.com/x" ≠ "https://example.com/x" :=
  ⟨rfl, rfl, by decide⟩

/-- C8: for every query-set state, get(just_url=True) performs no HTTP
request (so no JSON decoding either) and returns the base path with the
rendered locator appended directly — no locator query parameter. -/
theorem c8_just_url_no_fetch (net : Net) (s : QuerySetState)
    (idArg nameArg : Option String) :
    (getOp net s true false idArg nameArg).log = []
    ∧ (getOp net s true false idArg nameArg).res
        = .ok (.url (if Locator.render (filterOp s idArg nameArg).locator = ""
                     then s.baseUrl
                     else s.baseUrl
                          ++ Locator.render (filterOp s idArg nameArg).locator)) := by
  constructor
  · rfl
  · have h1 : (getOp net s true false idArg nameArg).res
        = .ok (.url (getUrl { filterOp s idArg nameArg with dataDict := none }
                       true none)) := rfl
    rw [h1, getUrl_detail]
    simp [filterOp_baseUrl]

/-- C9: get(just_url=True) with no criteria changes nothing in the state
except resetting the memoized payload to the unset sentinel, issues no
request, and a subsequent length evaluation on the resulting state performs
a fresh fetch (exactly one request). -/
theorem c9_just_url_frame (net : Net) (s : QuerySetState) :
    (getOp net s true false none none).state = { s with dataDict := none }
    ∧ (getOp net s true false none none).log = []
    ∧ (lenOp net { s with dataDict := none }).log.length = 1 := by
  refine ⟨rfl, rfl, ?_⟩
  rw [lenOp_log, dataOp_log_uncached]
  · rfl
  · rfl

/-- The element list of the collection payload used by witnesses. -/
def dsPayload : List Json :=
  [.obj [("id", .str "A")], .obj [("id", .str "B")]]

/-- A decoded collection payload with a count of 2 and two projects. -/
def jPayload : Json :=
  .obj [("count", .num 2), ("project", .arr dsPayload)]

/-- A query set that has already fetched `jPayload`. -/
def sFetched : QuerySetState := { sFresh with dataDict := some jPayload }

/-- A transport that always answers 200 with an empty object body. -/
def netEmpty : Net := fun _ => ⟨200, "", .obj []⟩

/-- A transport that always answers 304 Not Modified. -/
def net304 : Net := fun _ => ⟨304, "Not Modified", .obj []⟩

/-- A transport that always answers 401. -/
def net401 : Net := fun _ => ⟨401, "Unauthorized body", .obj []⟩

/-- A transport that always answers 500. -/
def net500 : Net := fun _ => ⟨500, "Server error body", .obj []⟩

/-- C10: length evaluation on a fetched payload returns the integer under
the "count" key when it is present, and fails with a key-lookup error when
the key is absent — no default is substituted. -/
theorem c10_len_requires_count (net : Net) (s : QuerySetState) (j : Json)
    (hd : s.dataDict = some j) (ht : truthyDict (some j) = true) :
    (∀ n : Int, j.lookup "count" = some (.num n) → (lenOp net s).res = .ok n)
    ∧ (j.lookup "count" = none →
        (lenOp net s).res = .error (.keyError "count")) := by
  have hc : dataOp net s false none = ⟨.ok j, s, []⟩ := by
    rw [dataOp_cached net s false none (by rw [hd]; exact ht), hd]
    rfl
  constructor
  · intro n hn
    simp only [lenOp, hc, hn]
  · intro hn
    simp only [lenOp, hc, hn]

/-- Witness for C10 at the concrete payload with count 2, and at a payload
lacking the count key. -/
theorem c10_len_requires_count_witness :
    sFetched.dataDict = some jPayload
    ∧ truthyDict (some jPayload) = true
    ∧ (lenOp netEmpty sFetched).res = .ok 2
    ∧ (lenOp netEmpty
        { sFresh with dataDict := some (.obj [("href", .str "/p")]) }).res
        = .error (.keyError "count") :=
  ⟨rfl, rfl,
   (c10_len_requires_count netEmpty sFetched jPayload rfl rfl).1 2 rfl,
   (c10_len_requires_count netEmpty
      { sFresh with dataDict := some (.obj [("href", .str "/p")]) }
      (.obj [("href", .str "/p")]) rfl rfl).2 rfl⟩

/-- C7: on a query set whose fetched payload holds the entity list `ds`
under the "project" key, integer indexing past the end surfaces the
out-of-range condition (the StopIteration escaping the exhausted sliced
iterator), while an in-range index returns the entity built from the
corresponding payload element, in payload order. -/
theorem c7_getitem_bounds (net : Net) (s : QuerySetState) (j : Json)
    (ds : List Json) (i : Nat)
    (hd : s.dataDict = some j)
    (hp : j.lookup "project" = some (.arr ds)) :
    (ds.length ≤ i → (getItemOp net s i).res = .error .stopIteration)
    ∧ (∀ h : i < ds.length,
        (getItemOp net s i).res = .ok (Project.fromDict (ds.get ⟨i, h⟩))) := by
  have ht := lookup_some_truthy j "project" (.arr ds) hp
  have hc : dataOp net s false none = ⟨.ok j, s, []⟩ := by
    rw [dataOp_cached net s false none (by rw [hd]; exact ht), hd]
    rfl
  have hiter : iterOp net s = ⟨.ok (ds.map Project.fromDict), s, []⟩ := by
    simp only [iterOp, hc, hp]
  constructor
  · intro hle
    have hnone : (ds.map Project.fromDict).get? i = none := by
      rw [List.get?_eq_none]
      simpa using hle
    simp only [getItemOp, hiter, hnone]
  · intro h
    have hsome : (ds.map Project.fromDict).get? i
        = some (Project.fromDict (ds.get ⟨i, h⟩)) := by
      rw [List.get?_eq_getElem?, List.getElem?_map, ← List.get?_eq_getElem?,
        List.get?_eq_get h]
      rfl
    simp only [getItemOp, hiter, hsome]

/-- Witness for C7 at the two-element payload: index 0 yields the first
entity, index 5 is out of range. -/
theorem c7_getitem_bounds_witness :
    sFetched.dataDict = some jPayload
    ∧ jPayload.lookup "project" = some (.arr dsPayload)
    ∧ (getItemOp netEmpty sFetched 0).res
        = .ok (Project.fromDict (.obj [("id", .str "A")]))
    ∧ (getItemOp netEmpty sFetched 5).res = .error .stopIteration :=
  ⟨rfl, rfl,
   (c7_getitem_bounds netEmpty sFetched jPayload dsPayload 0 rfl rfl).2
     (by decide),
   (c7_getitem_bounds netEmpty sFetched jPayload dsPayload 5 rfl rfl).1
     (by decide)⟩

/-- C5 (amended: the raise-on-status check of the underlying requests
library fires for 4xx and 5xx statuses, not for every non-2xx): a fetch
whose response status is in 400-599 raises Unauthorized when the status is
401 and the generic HTTP failure for any other such status, both carrying
the original status code and the raw body text unchanged. -/
theorem c5_error_statuses (net : Net) (s : QuerySetState) (details : Bool)
    (href : Option String)
    (h4 : 400 ≤ (net (getUrl s details href)).status)
    (h6 : (net (getUrl s details href)).status < 600) :
    ((net (getUrl s details href)).status = 401 →
      (fetchOp net s details href).res
        = .error (.unauthorized (net (getUrl s details href)).status
                                (net (getUrl s details href)).text))
    ∧ ((net (getUrl s details href)).status ≠ 401 →
      (fetchOp net s details href).res
        = .error (.httpError (net (getUrl s details href)).status
                             (net (getUrl s details href)).text)) := by
  constructor <;> intro h401 <;> simp [fetchOp, h4, h6, h401]

/-- Witness for C5 at concrete 401 and 500 responses. -/
theorem c5_error_statuses_witness :
    400 ≤ (net401 (getUrl sFresh false none)).status
    ∧ (net401 (getUrl sFresh false none)).status < 600
    ∧ (fetchOp net401 sFresh false none).res
        = .error (.unauthorized 401 "Unauthorized body")
    ∧ (fetchOp net500 sFresh false none).res
        = .error (.httpError 500 "Server error body") :=
  ⟨by decide, by decide,
   (c5_error_statuses net401 sFresh false none (by decide) (by decide)).1 rfl,
   (c5_error_statuses net500 sFresh false none (by decide) (by decide)).2
     (by decide)⟩

/-- C5 counterexample: a 304 response has a non-2xx status, yet the fetch
raises no condition at all — it returns the decoded body, because the
raise-on-status check of the transport only fires for 4xx/5xx. -/
theorem c5_counterexample :
    (304 < 200 ∨ 300 ≤ 304)
    ∧ (fetchOp net304 sFresh false none).res = .ok (.obj []) :=
  ⟨by decide, rfl⟩

/-! ## More helper lemmas, for the get and length paths -/

theorem getUrl_set_dataDict (s : QuerySetState) (d : Option Json)
    (details : Bool) (href : Option String) :
    getUrl { s with dataDict := d } details href = getUrl s details href := rfl

theorem getUrl_set_url_dataDict (s : QuerySetState) (o : Option String)
    (d : Option Json) (details : Bool) (href : Option String) :
    getUrl { s with url := o, dataDict := d } details href
      = getUrl s details href := rfl

theorem append_ne_empty_left (a b : String) (h : a.length ≠ 0) :
    a ++ b ≠ "" := by
  intro he
  have h1 : (a ++ b).length = 0 := by rw [he]; rfl
  rw [String.length_append] at h1
  omega

theorem render_id (X : String) : Locator.render [("id", X)] = "id:" ++ X := rfl

theorem fetchOp_res_err (net : Net) (s : QuerySetState) (details : Bool)
    (href : Option String)
    (herr : 400 ≤ (net (getUrl s details href)).status
            ∧ (net (getUrl s details href)).status < 600) :
    (fetchOp net s details href).res
      = .error (if (net (getUrl s details href)).status = 401
          then .unauthorized (net (getUrl s details href)).status
                             (net (getUrl s details href)).text
          else .httpError (net (getUrl s details href)).status
                          (net (getUrl s details href)).text) := by
  simp only [fetchOp, if_pos herr]
  split <;> simp [*]

theorem dataOp_res_uncached (net : Net) (s : QuerySetState) (details : Bool)
    (href : Option String) (h0 : truthyDict s.dataDict = false) :
    (dataOp net s details href).res = (fetchOp net s details href).res := by
  simp only [dataOp, h0, Bool.false_eq_true, if_false]
  split <;> simp [*]

theorem lenOp_res_err (net : Net) (s : QuerySetState) (e : TCError)
    (h : (dataOp net s false none).res = .error e) :
    (lenOp net s).res = .error e := by
  simp only [lenOp, h]

theorem lenOp_parts (net : Net) (s : QuerySetState)
    (h0 : truthyDict s.dataDict = false)
    (hok : ¬(400 ≤ (net (getUrl s false none)).status
             ∧ (net (getUrl s false none)).status < 600)) :
    lenOp net s
      = ⟨(match (net (getUrl s false none)).body.lookup "count" with
          | some (.num n) => .ok n
          | some _ => .error .typeError
          | none => .error (.keyError "count")),
         { s with url := some (getUrl s false none),
                  dataDict := some (net (getUrl s false none)).body },
         [getUrl s false none]⟩ := by
  have hd := dataOp_uncached_ok net s false none h0 hok
  simp only [lenOp, hd]
  split <;> rfl

theorem getFinish_log (net : Net) (s : QuerySetState) (log' : List String) :
    (getFinish net s false log').log = log' ++ [getUrl s true none] := by
  simp only [getFinish]
  rw [if_neg (by simp : ¬(false = true))]
  split <;>
    simp [dataOp_log_uncached net { s with dataDict := none } true none rfl,
      getUrl_set_dataDict]

theorem getFinish_fetch_ok (net : Net) (s : QuerySetState) (log' : List String)
    (hok : ¬(400 ≤ (net (getUrl s true none)).status
             ∧ (net (getUrl s true none)).status < 600)) :
    getFinish net s false log'
      = ⟨.ok (.entity (Project.fromDict (net (getUrl s true none)).body)),
         { s with url := some (getUrl s true none),
                  dataDict := some (net (getUrl s true none)).body },
         log' ++ [getUrl s true none]⟩ := by
  have hu := getUrl_set_dataDict s none true none
  have h1 := dataOp_uncached_ok net { s with dataDict := none } true none rfl
    (by rw [hu]; exact hok)
  rw [hu] at h1
  simp only [getFinish, h1]
  rw [if_neg (by simp : ¬(false = true))]

theorem getFinish_err (net : Net) (s : QuerySetState) (log' : List String)
    (herr : 400 ≤ (net (getUrl s true none)).status
            ∧ (net (getUrl s true none)).status < 600) :
    (getFinish net s false log').res
      = .error (if (net (getUrl s true none)).status = 401
          then .unauthorized (net (getUrl s true none)).status
                             (net (getUrl s true none)).text
          else .httpError (net (getUrl s true none)).status
                          (net (getUrl s true none)).text) := by
  have hu := getUrl_set_dataDict s none true none
  have h1 := dataOp_res_uncached net { s with dataDict := none } true none rfl
  have h2 := fetchOp_res_err net { s with dataDict := none } true none
    (by rw [hu]; exact herr)
  rw [h2, hu] at h1
  simp only [getFinish, h1]
  rw [if_neg (by simp : ¬(false = true))]

/-- C1: from a query set with no prior filters and any prior memoization
state, filter(id=X) followed by get() issues exactly one request, to the
detail URL formed by appending the raw rendered locator id:X directly to
the base path (no locator query parameter), and on a successful response
the result and the new memoized payload come from that fresh response —
the previously memoized payload is discarded. -/
theorem c1_filter_get_refetches (net : Net) (s : QuerySetState) (X : String)
    (hloc : s.locator = []) :
    (getOp net (filterOp s (some X) none) false false none none).log
      = [s.baseUrl ++ ("id:" ++ X)]
    ∧ (¬(400 ≤ (net (s.baseUrl ++ ("id:" ++ X))).status
          ∧ (net (s.baseUrl ++ ("id:" ++ X))).status < 600) →
        (getOp net (filterOp s (some X) none) false false none none).res
          = .ok (.entity (Project.fromDict
              (net (s.baseUrl ++ ("id:" ++ X))).body))
        ∧ (getOp net (filterOp s (some X) none) false false none
             none).state.dataDict
          = some (net (s.baseUrl ++ ("id:" ++ X))).body) := by
  have hloc2 : ({ s with locator := s.locator ++ [("id", X)] }
      : QuerySetState).locator = [("id", X)] := by
    simp [hloc]
  have hurl : getUrl { s with locator := s.locator ++ [("id", X)] } true none
      = s.baseUrl ++ ("id:" ++ X) := by
    rw [getUrl_detail, hloc2, render_id,
      if_neg (append_ne_empty_left "id:" X (by decide))]
  have hgo : getOp net (filterOp s (some X) none) false false none none
      = getFinish net { s with locator := s.locator ++ [("id", X)] }
          false [] := rfl
  constructor
  · rw [hgo, getFinish_log, hurl]
    rfl
  · intro hok
    rw [← hurl] at hok
    rw [hgo, getFinish_fetch_ok net _ [] hok]
    exact ⟨by rw [hurl], by rw [hurl]⟩

/-- A query set with an empty locator but a previously memoized payload. -/
def sMemo : QuerySetState :=
  { sFresh with dataDict := some (.obj [("count", .num 5)]) }

/-- A transport answering 200 with a single-project detail body. -/
def netProj : Net := fun _ => ⟨200, "", .obj [("id", .str "X1")]⟩

/-- Witness for C1 at a concrete query set carrying a stale memoized
payload. -/
theorem c1_filter_get_refetches_witness :
    sMemo.locator = []
    ∧ (getOp netProj (filterOp sMemo (some "X1") none) false false none
         none).log
        = [sMemo.baseUrl ++ ("id:" ++ "X1")]
    ∧ (getOp netProj (filterOp sMemo (some "X1") none) false false none
         none).res
        = .ok (.entity (Project.fromDict (.obj [("id", .str "X1")]))) :=
  ⟨rfl, (c1_filter_get_refetches netProj sMemo "X1" rfl).1,
   ((c1_filter_get_refetches netProj sMemo "X1" rfl).2 (by decide)).1⟩

/-- C2: a never-fetched query set (memoized payload still the initial empty
dict) performs exactly one request on the first length evaluation; whenever
that evaluation returns a count, a second length evaluation on the resulting
state performs zero requests and returns the same count from the cached
payload. -/
theorem c2_len_fetches_once (net : Net) (s : QuerySetState)
    (h : s.dataDict = some (.obj [])) :
    (lenOp net s).log.length = 1
    ∧ ∀ n : Int, (lenOp net s).res = .ok n →
        (lenOp net (lenOp net s).state).res = .ok n
        ∧ (lenOp net (lenOp net s).state).log = [] := by
  have h0 : truthyDict s.dataDict = false := by rw [h]; rfl
  constructor
  · rw [lenOp_log, dataOp_log_uncached net s false none h0]
    rfl
  · intro n hn
    by_cases hok : 400 ≤ (net (getUrl s false none)).status
        ∧ (net (getUrl s false none)).status < 600
    · exfalso
      have h1 := dataOp_res_uncached net s false none h0
      rw [fetchOp_res_err net s false none hok] at h1
      have h2 := lenOp_res_err net s _ h1
      rw [hn] at h2
      simp at h2
    · have hl := lenOp_parts net s h0 hok
      have hstate : (lenOp net s).state
          = { s with url := some (getUrl s false none),
                     dataDict := some (net (getUrl s false none)).body } := by
        rw [hl]
      rw [hl] at hn
      rw [hstate]
      rcases hcount : (net (getUrl s false none)).body.lookup "count"
        with _ | v
      · rw [hcount] at hn
        simp at hn
      · rcases v with m | t | es | fl
        · rw [hcount] at hn
          simp at hn
          subst hn
          have ht : truthyDict (some (net (getUrl s false none)).body) = true :=
            lookup_some_truthy _ "count" _ hcount
          have hc2 : dataOp net
              { s with url := some (getUrl s false none),
                       dataDict := some (net (getUrl s false none)).body }
              false none
              = ⟨.ok (net (getUrl s false none)).body,
                 { s with url := some (getUrl s false none),
                          dataDict := some (net (getUrl s false none)).body },
                 []⟩ := by
            rw [dataOp_cached net _ false none ht]
            rfl
          constructor
          · simp only [lenOp, hc2, hcount]
          · simp only [lenOp, hc2, hcount]
        · rw [hcount] at hn
          simp at hn
        · rw [hcount] at hn
          simp at hn
        · rw [hcount] at hn
          simp at hn

/-- A transport answering 200 with the two-project collection payload. -/
def netPayload : Net := fun _ => ⟨200, "", jPayload⟩

/-- Witness for C2 on a fresh query set against a transport serving the
count-2 collection payload. -/
theorem c2_len_fetches_once_witness :
    sFresh.dataDict = some (.obj [])
    ∧ (lenOp netPayload sFresh).log.length = 1
    ∧ (lenOp netPayload (lenOp netPayload sFresh).state).res = .ok 2
    ∧ (lenOp netPayload (lenOp netPayload sFresh).state).log = [] :=
  ⟨rfl, (c2_len_fetches_once netPayload sFresh rfl).1,
   ((c2_len_fetches_once netPayload sFresh rfl).2 2 rfl).1,
   ((c2_len_fetches_once netPayload sFresh rfl).2 2 rfl).2⟩

/-- C3 (amended: the separate un-detailed count fetch happens only when no
truthy payload is memoized — a previously fetched query set serves the
count from its cache and the call then issues only the single detail
request): on an unfetched query set, get(raise_multiple_objects_returned=
True) first issues the un-detailed count fetch; the multiple-objects
condition is raised exactly when the count exceeds 1 (one request total,
no detail fetch), and when the count is at most 1 the detail fetch follows
the count fetch (two requests) and the multiple-objects condition is not
raised. -/
theorem c3_count_fetch_amended (net : Net) (s : QuerySetState) (n : Int)
    (h0 : truthyDict s.dataDict = false)
    (hok : ¬(400 ≤ (net (getUrl s false none)).status
             ∧ (net (getUrl s false none)).status < 600))
    (hcount : (net (getUrl s false none)).body.lookup "count"
        = some (.num n)) :
    (1 < n →
      (getOp net s false true none none).res = .error .multipleObjectsReturned
      ∧ (getOp net s false true none none).log = [getUrl s false none])
    ∧ (n ≤ 1 →
      (getOp net s false true none none).log
        = [getUrl s false none, getUrl s true none]
      ∧ (getOp net s false true none none).res
          ≠ .error .multipleObjectsReturned) := by
  have hlen : lenOp net s
      = ⟨.ok n,
         { s with url := some (getUrl s false none),
                  dataDict := some (net (getUrl s false none)).body },
         [getUrl s false none]⟩ := by
    rw [lenOp_parts net s h0 hok, hcount]
  have hud : getUrl
      { s with url := some (getUrl s false none),
               dataDict := some (net (getUrl s false none)).body } true none
      = getUrl s true none :=
    getUrl_set_url_dataDict s (some (getUrl s false none))
      (some (net (getUrl s false none)).body) true none
  constructor
  · intro hgt
    have hif : getOp net s false true none none
        = ⟨.error .multipleObjectsReturned,
           { s with url := some (getUrl s false none),
                    dataDict := some (net (getUrl s false none)).body },
           [getUrl s false none]⟩ := by
      simp only [getOp, filterOp, hlen, eq_self_iff_true, if_true]
      rw [if_pos hgt]
    rw [hif]
    exact ⟨rfl, rfl⟩
  · intro hle
    have hif : getOp net s false true none none
        = getFinish net
            { s with url := some (getUrl s false none),
                     dataDict := some (net (getUrl s false none)).body }
            false [getUrl s false none] := by
      simp only [getOp, filterOp, hlen, eq_self_iff_true, if_true]
      rw [if_neg (show ¬(1 < n) by omega)]
    constructor
    · rw [hif, getFinish_log, hud]
      rfl
    · rw [hif]
      by_cases herr : 400 ≤ (net (getUrl s true none)).status
          ∧ (net (getUrl s true none)).status < 600
      · rw [getFinish_err net _ _ (by rw [hud]; exact herr)]
        rw [hud]
        split <;> simp
      · rw [getFinish_fetch_ok net _ _ (by rw [hud]; exact herr)]
        simp

/-- A transport answering 200 with a count-2 payload. -/
def netCount2 : Net := fun _ => ⟨200, "", .obj [("count", .num 2)]⟩

/-- A transport answering 200 with a count-1 payload. -/
def netCount1 : Net := fun _ => ⟨200, "", .obj [("count", .num 1)]⟩

/-- Witness for C3 on a fresh (unfetched) query set, at counts 2 and 1. -/
theorem c3_count_fetch_amended_witness :
    truthyDict sFresh.dataDict = false
    ∧ ((getOp netCount2 sFresh false true none none).res
        = .error .multipleObjectsReturned
       ∧ (getOp netCount2 sFresh false true none none).log
        = [getUrl sFresh false none])
    ∧ ((getOp netCount1 sFresh false true none none).log
        = [getUrl sFresh false none, getUrl sFresh true none]
       ∧ (getOp netCount1 sFresh false true none none).res
          ≠ .error .multipleObjectsReturned) :=
  ⟨rfl,
   (c3_count_fetch_amended netCount2 sFresh 2 rfl (by decide) rfl).1 (by decide),
   (c3_count_fetch_amended netCount1 sFresh 1 rfl (by decide) rfl).2 (by decide)⟩

/-- A query set that already memoized a count-1 payload. -/
def sMemoOne : QuerySetState :=
  { sFresh with dataDict := some (.obj [("count", .num 1)]) }

/-- C3 counterexample: on a query set with a memoized payload,
get(raise_multiple_objects_returned=True) performs no separate un-detailed
count fetch at all — the count is read from the cache — and the whole call
issues exactly one request (the detail fetch), not two. -/
theorem c3_counterexample :
    (getOp netEmpty sMemoOne false true none none).log = [sMemoOne.baseUrl]
    ∧ (getOp netEmpty sMemoOne false true none none).log.length ≠ 2 := by
  constructor
  · rfl
  · decide
